import Mathlib

/-!
# Verification of the ogdc-runner core (recipe compilation & execution lifecycle)

Shallow embedding of the `ogdc_runner` Python package:

* `partitioning.py` — `create_partitions` and its chunking loop;
* `inputs.py` — fetch-stage command construction (`_build_fetch_commands`);
* `workflow/shell.py` — the sequential (`Steps`) and parallel (`DAG`) shell
  workflow compilers;
* `publish.py` — the publish-state protocol (`data_already_published`);
* `argo.py` — `make_generate_name`, `submit_workflow` and the
  `wait_for_workflow_completion` poll loop;
* `models/recipe_config.py` — recipe name validation, id derivation, and the
  network effects of loading/validating a recipe configuration.

Machine integers are `Nat`/`Int`; Python's fallible functions are modelled
with `Except String` carrying the exact error message the source raises.
External effects (the Argo engine, the shared PVC volume, HTTP requests) are
modelled explicitly: the PVC data store is a list of recipe-id subpaths, the
engine's status reports are a finite observation trace, and network calls are
an event list produced alongside the result.
-/

namespace OgdcRunner

/-- From `models/parallel_config.py` (`ExecutionFunction`): a named unit of
work with an optional shell command.  Only the fields the partitioner and the
shell compiler touch are carried. -/
structure ExecutionFunction where
  name : String
  command : Option String := none
deriving Repr, DecidableEq

/-- Modelled from the spec: the `parallel` recipe configuration
(`enabled: bool`, `partition_strategy` (only "files"), `partition_size`).
The class itself (`ParallelConfig`, declared in `models/recipe_config.py` per
`models/parallel_config.py`'s module comment and imported by
`models/__init__.py` and `partitioning.py`) is absent from the source
snapshot; only its callers are present.  `partitioning.py` reads the
configured partition size through the attribute `num_files_per_partition`,
so the size is stored under that name. -/
structure ParallelConfig where
  enabled : Bool
  partition_strategy : String := "files"
  num_files_per_partition : Int
deriving Repr, DecidableEq

/-- From `models/parallel_config.py` (`FilePartition`): one unit of parallel
work.  `metadata` in the source is the dict `{"num_files": len(chunk)}`;
here the single count is carried directly. -/
structure FilePartition where
  partition_id : Nat
  files : List String
  execution_function : String
  metadata_num_files : Nat
deriving Repr, DecidableEq

/-- The chunking loop of `partitioning.py::create_partitions`
(`for partition_id, i in enumerate(range(0, len(files), num_files))`),
written with explicit fuel so that it is structural (and kernel-executable):
with `n >= 1` — guaranteed by the clamp at the call site — every step
consumes at least one file, so `l.length` fuel suffices. -/
def buildPartitionsFuel (funcName : String) (n : Nat) :
    Nat → Nat → List String → List FilePartition
  | 0, _, _ => []
  | fuel + 1, pid, l =>
    if n = 0 ∨ l = [] then []
    else
      { partition_id := pid, files := l.take n, execution_function := funcName,
        metadata_num_files := (l.take n).length } ::
        buildPartitionsFuel funcName n fuel (pid + 1) (l.drop n)

/-- The chunking loop at its natural fuel: contiguous, order-preserving
chunks of `n` files, numbering partitions from `pid` upward. -/
def buildPartitions (funcName : String) (n : Nat) (pid : Nat) (l : List String) :
    List FilePartition :=
  buildPartitionsFuel funcName n l.length pid l

/-- From `partitioning.py::create_partitions`.  Inputs are already flattened
to the list of file strings (`_extract_files_from_inputs` maps each
`InputParam` to `str(param.value)`; a `Path` list is mapped through `str`).
`artifactFiles` stands for the file list produced by
`_discover_files_from_artifact` when an `artifact_path` is passed (the
directory walk itself is outside the model); `none` means no artifact path
was given.  Error strings are the messages the source raises. -/
def create_partitions (inputs : Option (List String))
    (execution_function : Option ExecutionFunction)
    (parallel_config : Option ParallelConfig)
    (artifactFiles : Option (List String)) : Except String (List FilePartition) :=
  match execution_function with
  | none => .error "execution_function must be provided"
  | some func =>
    let files? : Except String (List String) :=
      match artifactFiles with
      | some fs => .ok fs
      | none =>
        match inputs with
        | some fs => if fs = [] then
            .error "Either 'inputs' or 'artifact_path' must be provided"
          else .ok fs
        | none => .error "Either 'inputs' or 'artifact_path' must be provided"
    match files? with
    | .error e => .error e
    | .ok files =>
      let num_files : Int :=
        match parallel_config with
        | some pc => pc.num_files_per_partition
        | none => 1
      let eff : Nat := if num_files < 1 then 1 else num_files.toNat
      .ok (buildPartitions func.name eff 0 files)

theorem buildPartitionsFuel_join (funcName : String) (n : Nat) (hn : 0 < n) :
    ∀ (fuel : Nat) (l : List String), l.length ≤ fuel → ∀ pid : Nat,
      ((buildPartitionsFuel funcName n fuel pid l).map (·.files)).flatten = l := by
  intro fuel
  induction fuel with
  | zero =>
    intro l hl _
    have hnil : l = [] := List.eq_nil_of_length_eq_zero (Nat.le_zero.mp hl)
    subst hnil
    rfl
  | succ fuel ih =>
    intro l hl pid
    rw [buildPartitionsFuel]
    by_cases hnil : l = []
    · simp [hnil]
    · have hcond : ¬(n = 0 ∨ l = []) := by
        push_neg
        exact ⟨by omega, hnil⟩
      rw [if_neg hcond]
      have hpos : 0 < l.length := List.length_pos.mpr hnil
      have hlen : (l.drop n).length ≤ fuel := by
        rw [List.length_drop]
        omega
      simp only [List.map_cons, List.flatten_cons, ih (l.drop n) hlen (pid + 1)]
      exact List.take_append_drop n l

theorem buildPartitions_join (funcName : String) (n : Nat) (hn : 0 < n)
    (l : List String) (pid : Nat) :
    ((buildPartitions funcName n pid l).map (·.files)).flatten = l :=
  buildPartitionsFuel_join funcName n hn l.length l le_rfl pid

theorem buildPartitionsFuel_eq_range_map (funcName : String) (n : Nat) (hn : 0 < n) :
    ∀ (fuel : Nat) (l : List String), l.length ≤ fuel → ∀ pid : Nat,
      buildPartitionsFuel funcName n fuel pid l =
        (List.range ((l.length + n - 1) / n)).map (fun i =>
          { partition_id := pid + i, files := (l.drop (i * n)).take n,
            execution_function := funcName,
            metadata_num_files := ((l.drop (i * n)).take n).length }) := by
  intro fuel
  induction fuel with
  | zero =>
    intro l hl _
    have hnil : l = [] := List.eq_nil_of_length_eq_zero (Nat.le_zero.mp hl)
    subst hnil
    have hz : (n - 1) / n = 0 := Nat.div_eq_of_lt (by omega)
    simp [buildPartitionsFuel, hz]
  | succ fuel ih =>
    intro l hl pid
    rw [buildPartitionsFuel]
    by_cases hnil : l = []
    · subst hnil
      have hz : (n - 1) / n = 0 := Nat.div_eq_of_lt (by omega)
      simp [hz]
    · have hcond : ¬(n = 0 ∨ l = []) := by
        push_neg
        exact ⟨by omega, hnil⟩
      rw [if_neg hcond]
      have hpos : 0 < l.length := List.length_pos.mpr hnil
      have hlen : (l.drop n).length ≤ fuel := by
        rw [List.length_drop]
        omega
      rw [ih (l.drop n) hlen (pid + 1)]
      have hcount : (l.length + n - 1) / n = ((l.drop n).length + n - 1) / n + 1 := by
        rw [List.length_drop]
        rcases Nat.lt_or_ge l.length n with hsmall | hbig
        · have e1 : l.length + n - 1 = (l.length - 1) + n := by omega
          have e2 : l.length - n = 0 := by omega
          rw [e1, Nat.add_div_right _ hn, Nat.div_eq_of_lt (by omega), e2,
            Nat.div_eq_of_lt (by omega)]
        · have e1 : l.length + n - 1 = ((l.length - n) + n - 1) + n := by omega
          rw [e1, Nat.add_div_right _ hn]
      rw [hcount, List.range_succ_eq_map, List.map_cons, List.map_map]
      congr 1
      · simp
      · apply List.map_congr_left
        intro i _
        simp only [Function.comp_apply]
        have hdrop : (l.drop n).drop (i * n) = l.drop ((i + 1) * n) := by
          rw [List.drop_drop]
          congr 1
          ring
        have hpid : pid + 1 + i = pid + (i + 1) := by omega
        rw [hdrop, hpid]

theorem buildPartitions_eq_range_map (funcName : String) (n : Nat) (hn : 0 < n)
    (l : List String) (pid : Nat) :
    buildPartitions funcName n pid l =
      (List.range ((l.length + n - 1) / n)).map (fun i =>
        { partition_id := pid + i, files := (l.drop (i * n)).take n,
          execution_function := funcName,
          metadata_num_files := ((l.drop (i * n)).take n).length }) :=
  buildPartitionsFuel_eq_range_map funcName n hn l.length l le_rfl pid

theorem create_partitions_static_ok (F : List String) (func : ExecutionFunction)
    (pc : ParallelConfig) (hF : F ≠ []) :
    create_partitions (some F) (some func) (some pc) none =
      .ok (buildPartitions func.name
        (if pc.num_files_per_partition < 1 then 1 else pc.num_files_per_partition.toNat)
        0 F) := by
  unfold create_partitions
  simp only [if_neg hF]

/-- C2: for every non-empty file list `F` and every integer size `s`,
`create_partitions` succeeds with effective size `max s 1`; the `i`-th
partition carries the contiguous slice `F[i*eff : (i+1)*eff]` and has
`partition_id = i`; the number of partitions is `ceil |F| / eff`; the
partitions' files concatenate back to `F`; and repeating the call on
identical input yields identical output. -/
theorem c2_partitioner_characterization (F : List String) (s : Int)
    (func : ExecutionFunction) (pc : ParallelConfig) (eff : Nat)
    (hF : F ≠ []) (hs : pc.num_files_per_partition = s)
    (heff : eff = (max s 1).toNat) :
    create_partitions (some F) (some func) (some pc) none =
      .ok ((List.range ((F.length + eff - 1) / eff)).map (fun i =>
        { partition_id := i, files := (F.drop (i * eff)).take eff,
          execution_function := func.name,
          metadata_num_files := ((F.drop (i * eff)).take eff).length })) ∧
    (∃ ps, create_partitions (some F) (some func) (some pc) none = .ok ps ∧
      (ps.map (·.files)).flatten = F ∧
      ps.length = (F.length + eff - 1) / eff) ∧
    create_partitions (some F) (some func) (some pc) none =
      create_partitions (some F) (some func) (some pc) none := by
  have heffpos : 0 < eff := by
    have h1 : (1 : Int) ≤ max s 1 := le_max_right s 1
    omega
  have hclamp : (if pc.num_files_per_partition < 1 then 1
      else pc.num_files_per_partition.toNat) = eff := by
    rw [hs, heff]
    rcases lt_or_le s 1 with h | h
    · rw [if_pos h, max_eq_right (le_of_lt h)]
      rfl
    · rw [if_neg (not_lt.mpr h), max_eq_left h]
  have hok := create_partitions_static_ok F func pc hF
  rw [hclamp] at hok
  have hrange := buildPartitions_eq_range_map func.name eff heffpos F 0
  simp only [Nat.zero_add] at hrange
  refine ⟨by rw [hok, hrange], ⟨buildPartitions func.name eff 0 F, hok, ?_, ?_⟩, rfl⟩
  · exact buildPartitions_join func.name eff heffpos F 0
  · rw [hrange]
    simp [List.length_map, List.length_range]

theorem c2_partitioner_characterization_witness :
    create_partitions (some ["a", "b", "c"]) (some ⟨"cmd-0", some "echo t"⟩)
        (some ⟨true, "files", 2⟩) none =
      .ok ((List.range (((["a", "b", "c"] : List String).length + 2 - 1) / 2)).map (fun i =>
        { partition_id := i,
          files := ((["a", "b", "c"] : List String).drop (i * 2)).take 2,
          execution_function := "cmd-0",
          metadata_num_files :=
            (((["a", "b", "c"] : List String).drop (i * 2)).take 2).length })) ∧
    (∃ ps, create_partitions (some ["a", "b", "c"]) (some ⟨"cmd-0", some "echo t"⟩)
        (some ⟨true, "files", 2⟩) none = .ok ps ∧
      (ps.map (·.files)).flatten = ["a", "b", "c"] ∧
      ps.length = ((["a", "b", "c"] : List String).length + 2 - 1) / 2) ∧
    create_partitions (some ["a", "b", "c"]) (some ⟨"cmd-0", some "echo t"⟩)
        (some ⟨true, "files", 2⟩) none =
      create_partitions (some ["a", "b", "c"]) (some ⟨"cmd-0", some "echo t"⟩)
        (some ⟨true, "files", 2⟩) none :=
  c2_partitioner_characterization ["a", "b", "c"] 2 ⟨"cmd-0", some "echo t"⟩
    ⟨true, "files", 2⟩ 2 (by decide) rfl (by decide)

/-- C7: calling the partitioner with an empty file list and no artifact path
fails with the empty-input `ValueError` regardless of the configured
partition size, and never returns a partition list. -/
theorem c7_partition_empty_input_failure (func : ExecutionFunction)
    (pc : Option ParallelConfig) :
    create_partitions (some []) (some func) pc none =
      .error "Either 'inputs' or 'artifact_path' must be provided" ∧
    ∀ ps, create_partitions (some []) (some func) pc none ≠ .ok ps := by
  constructor
  · unfold create_partitions
    rfl
  · intro ps h
    rw [create_partitions.eq_def] at h
    simp at h

theorem c7_partition_empty_input_failure_witness :
    create_partitions (some []) (some ⟨"cmd-0", some "echo t"⟩)
        (some ⟨true, "files", (-3 : Int)⟩) none =
      .error "Either 'inputs' or 'artifact_path' must be provided" ∧
    ∀ ps, create_partitions (some []) (some ⟨"cmd-0", some "echo t"⟩)
        (some ⟨true, "files", (-3 : Int)⟩) none ≠ .ok ps :=
  c7_partition_empty_input_failure ⟨"cmd-0", some "echo t"⟩
    (some ⟨true, "files", (-3 : Int)⟩)

/-- From `models/recipe_config.py` (`InputParam`): a typed input source.  The
source constrains `type` with a `Literal`; the raw string is kept because the
fetch builder (`inputs.py::_build_fetch_commands`) dispatches on string
equality and the claims concern unrecognized values reaching it. -/
structure InputParam where
  value : String
  type : String
deriving Repr, DecidableEq

/-- One character of the `RecipeMeta.name` pattern `r"^[a-zA-Z0-9 .-]+$"`. -/
def recipeNameCharAllowed (c : Char) : Bool :=
  c.isUpper || c.isLower || c.isDigit || c = ' ' || c = '.' || c = '-'

/-- `RecipeMeta.name` validation: the pydantic field pattern
`r"^[a-zA-Z0-9 .-]+$"` (at least one character, all from the allowed set). -/
def isValidRecipeName (name : String) : Bool :=
  !name.isEmpty && name.toList.all recipeNameCharAllowed

/-- `RecipeConfig.id` (computed field): `self.name.lower().replace(" ", "-")`.
Expressed character-wise: the name pattern restricts accepted names to ASCII,
on which Python's `str.lower` is the per-character lowering and replacing the
single-character pattern `" "` is the per-character substitution. -/
def recipeConfigId (name : String) : String :=
  String.mk ((name.data.map Char.toLower).map (fun c => if c = ' ' then '-' else c))

/-- The recipe output variants (`PvcRecipeOutput`, `TemporaryRecipeOutput`,
`DataOneRecipeOutput` imported by `publish.py`).  The class bodies are absent
from the source snapshot; modelled from the spec as a closed variant set
discriminated the way `publish.py` reads it (`output.type` equal to `"pvc"`,
`"temporary"`, or the DataONE kind). -/
inductive RecipeOutputKind where
  | pvc
  | temporary
  | dataone
deriving Repr, DecidableEq

/-- From `models/recipe_config.py` (`ShellWorkflow`): the shell workflow
configuration.  `shFileContent` is the text of the recipe's `sh_file`;
`parallel` is the parallel configuration read by `workflow/shell.py`
(`recipe_config.workflow.parallel`). -/
structure ShellWorkflowModel where
  shFileContent : String
  parallel : ParallelConfig
deriving Repr, DecidableEq

/-- `ShellWorkflow.get_commands_from_sh_file`: split the file text on
newlines, keep non-empty lines that do not start with `#`.  Splitting and the
one-character `startswith` test are expressed on the character list. -/
def getCommandsFromShFile (w : ShellWorkflowModel) : List String :=
  ((w.shFileContent.data.splitOn '\n').map String.mk).filter
    (fun line => line != "" && !(line.data.head? == some '#'))

/-- From `models/recipe_config.py` (`RecipeConfig`): the fields the compiler
and the publish-state protocol read.  `inputParams` is `input.params`
(validated non-empty in the source; kept unconstrained here and handled at
the call sites that depend on it). -/
structure RecipeConfig where
  name : String
  inputParams : List InputParam
  output : RecipeOutputKind
  workflow : ShellWorkflowModel
deriving Repr, DecidableEq

/-- `RecipeConfig.id`, the derived slug. -/
def RecipeConfig.id (rc : RecipeConfig) : String :=
  recipeConfigId rc.name

/-- C8: a valid name derives its id by lower-casing and replacing spaces with
dashes (`"My Recipe"` gives `"my-recipe"`), and any name containing `*`
fails the name-pattern validation. -/
theorem c8_recipe_id_derivation :
    (isValidRecipeName "My Recipe" = true ∧ recipeConfigId "My Recipe" = "my-recipe") ∧
    (∀ name : String, '*' ∈ name.toList → isValidRecipeName name = false) := by
  refine ⟨⟨by decide, by decide⟩, ?_⟩
  intro name hstar
  unfold isValidRecipeName
  have hall : name.toList.all recipeNameCharAllowed = false := by
    rw [List.all_eq_false]
    exact ⟨'*', hstar, by decide⟩
  rw [hall]
  exact Bool.and_false _

theorem c8_recipe_id_derivation_witness :
    isValidRecipeName "bad*name" = false :=
  c8_recipe_id_derivation.2 "bad*name" (by decide)

/-- A Hera `Container` template, reduced to the fields the claims observe:
its name and its `sh -c` argument strings. -/
structure Container where
  name : String
  args : List String
deriving Repr, DecidableEq

/-- `inputs.py::_get_output_directory`. -/
def _get_output_directory (recipe_id : String) (use_pvc : Bool) : String :=
  if use_pvc then "/mnt/workflow/" ++ recipe_id ++ "/inputs" else "/output_dir"

/-- `inputs.py::_build_url_fetch_command`. -/
def _build_url_fetch_command (url : String) (output_dir : String) : String :=
  "wget --content-disposition -P " ++ output_dir ++ "/ " ++ url

/-- The dispatch loop of `inputs.py::_build_fetch_commands`: walk the
parameters in order, emitting one `wget` command per `url` parameter and
raising at the first parameter of any other type (`pvc_mount` raises
`NotImplementedError`; everything else, including `file_system` and
`dataone`, raises `OgdcWorkflowExecutionError`). -/
def buildFetchCommandList (params : List InputParam) (output_dir : String) :
    Except String (List String) :=
  match params with
  | [] => .ok []
  | p :: rest =>
    if p.type = "url" then
      (buildFetchCommandList rest output_dir).map
        (fun cs => _build_url_fetch_command p.value output_dir :: cs)
    else if p.type = "pvc_mount" then
      .error "PVC mount inputs are not yet supported"
    else
      .error ("Unsupported input type: " ++ p.type ++ " for parameter " ++ p.value)

/-- `inputs.py::_build_fetch_commands`: join the per-parameter commands with
`" && "`, or fall back to an echo when there are none. -/
def _build_fetch_commands (params : List InputParam) (output_dir : String) :
    Except String String :=
  (buildFetchCommandList params output_dir).map
    (fun cs => if cs.isEmpty then "echo 'No input files to fetch'"
      else String.intercalate " && " cs)

/-- `inputs.py::make_fetch_input_template`.  The artifact/volume-mount wiring
that depends on `use_pvc` is not observed by any claim and is omitted. -/
def make_fetch_input_template (rc : RecipeConfig) (use_pvc : Bool) :
    Except String Container :=
  match _build_fetch_commands rc.inputParams (_get_output_directory rc.id use_pvc) with
  | .error e => .error e
  | .ok cmds =>
    .ok { name := rc.id ++ "-fetch-template-",
          args := ["mkdir -p " ++ _get_output_directory rc.id use_pvc ++ "/ && " ++ cmds] }

/-- `workflow/shell.py::make_cmd_template`. -/
def make_cmd_template (name : String) (command : String) : Container :=
  { name := name, args := ["mkdir -p /output_dir/ && " ++ command] }

/-- `publish.py::make_publish_template` dispatching on the output variant
(`_publish_template_for_pvc`, `_publish_template_for_temporary_output`,
`_publish_template_for_dataone` which raises `NotImplementedError("TODO!")`). -/
def make_publish_template (rc : RecipeConfig) : Except String Container :=
  match rc.output with
  | .pvc => .ok { name := "publish-data-",
                  args := ["rsync --progress /input_dir/* /output_dir/"] }
  | .temporary => .ok { name := "publish-data-",
                        args := ["mkdir -p /output_dir/ && cd /input_dir/ && zip -r /output_dir/"
                          ++ rc.id ++ ".zip ./*"] }
  | .dataone => .error "TODO!"

/-- A workflow task (a `Steps` step or a `DAG` task): its name and the name
of the container template it invokes. -/
structure WTask where
  name : String
  templateName : String
deriving Repr, DecidableEq

/-- One stage of the compiled workflow: the set of sibling tasks created for
one pipeline position (fetch, one shell command, or publish). -/
abbrev Stage := List WTask

/-- `workflow/shell.py::_create_sequential_workflow`: fetch template, publish
template, one command template per command, then the `Steps` chain
fetch → `step-0` … `step-(N-1)` → `publish-data`. -/
def _create_sequential_workflow (rc : RecipeConfig) (commands : List String) :
    Except String (List Stage) :=
  match make_fetch_input_template rc false with
  | .error e => .error e
  | .ok fetchT =>
    match make_publish_template rc with
    | .error e => .error e
    | .ok publishT =>
      .ok ([[{ name := fetchT.name, templateName := fetchT.name }]]
        ++ commands.enum.map (fun ic =>
            [{ name := "step-" ++ toString ic.1,
               templateName := (make_cmd_template ("run-cmd-" ++ toString ic.1) ic.2).name }])
        ++ [[{ name := "publish-data", templateName := publishT.name }]])

/-- Modelled from the spec: the text of `scripts/partition_processing.sh`
(read by `_build_partition_processing_script` via package resources) is not
in the source snapshot; only its substitution marker is represented. -/
def partition_processing_template : String := "\x7buser_command\x7d"

/-- `workflow/shell.py::ShellParallelExecutionOrchestrator._build_partition_processing_script`:
pure text substitution of the user's command into the script template.
Expressed as prefix/suffix splicing around the marker because the modelled
template is exactly the marker. -/
def _build_partition_processing_script (user_command : String) : String :=
  user_command

/-- `workflow/shell.py::ShellParallelExecutionOrchestrator.create_execution_template`:
a shell `Container` when the function has a (truthy) command, otherwise the
`ValueError` the source raises (the `function` branch is unused by shell
workflows, which always construct `ExecutionFunction(name=..., command=...)`). -/
def create_execution_template (func : ExecutionFunction) : Except String Container :=
  match func.command with
  | some c =>
    if c ≠ "" then
      .ok { name := func.name, args := [_build_partition_processing_script c] }
    else
      .error ("ExecutionFunction '" ++ func.name ++ "' must have 'command' or 'function'")
  | none =>
    .error ("ExecutionFunction '" ++ func.name ++ "' must have 'command' or 'function'")

/-- Modelled from the spec:
`ParallelExecutionOrchestrator.create_parallel_tasks` as invoked by
`workflow/shell.py::_build_parallel_task_dependencies` with a prebuilt
`template=` argument (the snapshot's `parallel.py` carries an older,
incompatible signature of the base class).  Per spec §4.3 the method
partitions the current file set with the partitioner — the static recipe
inputs here, since no artifact path is passed — and creates one task per
partition; the per-partition task construction
(`_create_tasks_from_partitions` / `_create_partition_task`) is translated
from `workflow/shell.py`, which names each task
`f"{func_name}-partition-{partition.partition_id}"`. -/
def create_parallel_tasks (rc : RecipeConfig) (func : ExecutionFunction)
    (template : Container) : Except String (List WTask) :=
  (create_partitions (some (rc.inputParams.map (·.value))) (some func)
      (some rc.workflow.parallel) none).map
    (fun ps => ps.map (fun pt =>
      { name := func.name ++ "-partition-" ++ toString pt.partition_id,
        templateName := template.name }))

/-- The error-propagating loop shape shared by the compiler passes: apply `f`
to each element in order, stopping at the first raised error (Python's
behavior when an exception escapes a loop or comprehension). -/
def mapMExcept (f : α → Except String β) : List α → Except String (List β)
  | [] => .ok []
  | a :: as =>
    match f a with
    | .error e => .error e
    | .ok b =>
      match mapMExcept f as with
      | .error e => .error e
      | .ok bs => .ok (b :: bs)

/-- `workflow/shell.py::_create_parallel_workflow` composed with
`_create_orchestrator_with_template` and `_build_parallel_task_dependencies`:
build the fetch template (PVC mode), one orchestrator + execution template
per command (`ExecutionFunction(name=f"cmd-{idx}", command=command)`), then
the `fetch` task followed by one stage of partition tasks per command.  The
`prev >> task` dependency edges carry no data the claims observe and are not
modelled. -/
def _create_parallel_workflow (rc : RecipeConfig) (commands : List String) :
    Except String (List Stage) :=
  match make_fetch_input_template rc true with
  | .error e => .error e
  | .ok fetchT =>
    match mapMExcept (fun (ic : Nat × String) =>
        (create_execution_template { name := "cmd-" ++ toString ic.1, command := some ic.2 }).map
          (fun t => (({ name := "cmd-" ++ toString ic.1, command := some ic.2 } : ExecutionFunction), t)))
      commands.enum with
    | .error e => .error e
    | .ok owt =>
      match mapMExcept (fun (ft : ExecutionFunction × Container) =>
          create_parallel_tasks rc ft.1 ft.2) owt with
      | .error e => .error e
      | .ok cmdStages =>
        .ok ([[{ name := "fetch", templateName := fetchT.name }]] ++ cmdStages)

/-- `workflow/shell.py::make_and_submit_shell_workflow`, up to submission:
read the commands from the workflow's `sh_file` and select the parallel or
sequential compiler on `parallel_config.enabled`. -/
def makeShellWorkflowStages (rc : RecipeConfig) : Except String (List Stage) :=
  if rc.workflow.parallel.enabled then
    _create_parallel_workflow rc (getCommandsFromShFile rc.workflow)
  else
    _create_sequential_workflow rc (getCommandsFromShFile rc.workflow)

theorem make_fetch_input_template_ok_name (rc : RecipeConfig) (b : Bool)
    (t : Container) (h : make_fetch_input_template rc b = .ok t) :
    t.name = rc.id ++ "-fetch-template-" := by
  unfold make_fetch_input_template at h
  cases hcmds : _build_fetch_commands rc.inputParams (_get_output_directory rc.id b) with
  | error e =>
    rw [hcmds] at h
    cases h
  | ok cmds =>
    rw [hcmds] at h
    cases h
    rfl

theorem mapMExcept_ok_length {α β : Type} (f : α → Except String β) :
    ∀ (l : List α) (res : List β), mapMExcept f l = .ok res → res.length = l.length := by
  intro l
  induction l with
  | nil =>
    intro res h
    rw [mapMExcept] at h
    cases h
    rfl
  | cons a as ih =>
    intro res h
    rw [mapMExcept] at h
    cases hfa : f a with
    | error e =>
      rw [hfa] at h
      cases h
    | ok b =>
      rw [hfa] at h
      cases hrest : mapMExcept f as with
      | error e =>
        rw [hrest] at h
        cases h
      | ok bs =>
        rw [hrest] at h
        cases h
        simp [ih bs hrest]

theorem mapMExcept_ok_mem {α β : Type} (f : α → Except String β) :
    ∀ (l : List α) (res : List β), mapMExcept f l = .ok res →
      ∀ b ∈ res, ∃ a ∈ l, f a = .ok b := by
  intro l
  induction l with
  | nil =>
    intro res h
    rw [mapMExcept] at h
    cases h
    intro b hb
    cases hb
  | cons a as ih =>
    intro res h
    rw [mapMExcept] at h
    cases hfa : f a with
    | error e =>
      rw [hfa] at h
      cases h
    | ok b0 =>
      rw [hfa] at h
      cases hrest : mapMExcept f as with
      | error e =>
        rw [hrest] at h
        cases h
      | ok bs =>
        rw [hrest] at h
        cases h
        intro b hb
        rcases List.mem_cons.mp hb with hb | hb
        · exact ⟨a, List.mem_cons_self a as, hb ▸ hfa⟩
        · rcases ih bs hrest b hb with ⟨a2, ha2, hfa2⟩
          exact ⟨a2, List.mem_cons_of_mem a ha2, hfa2⟩

theorem create_parallel_tasks_ok_length (rc : RecipeConfig)
    (func : ExecutionFunction) (template : Container) (ts : List WTask) (p : Nat)
    (hp : rc.workflow.parallel.num_files_per_partition = (p : Int)) (hp1 : 1 ≤ p)
    (h : create_parallel_tasks rc func template = .ok ts) :
    ts.length = (rc.inputParams.length + p - 1) / p := by
  unfold create_parallel_tasks at h
  by_cases hfs : rc.inputParams.map (·.value) = []
  · rw [hfs] at h
    rw [create_partitions.eq_def] at h
    simp [Except.map] at h
  · rw [create_partitions_static_ok _ func rc.workflow.parallel hfs] at h
    simp only [Except.map] at h
    cases h
    have heff : (if rc.workflow.parallel.num_files_per_partition < 1 then 1
        else rc.workflow.parallel.num_files_per_partition.toNat) = p := by
      rw [hp]
      rw [if_neg (by exact_mod_cast not_lt.mpr (by exact_mod_cast hp1))]
      exact Int.toNat_natCast p
    rw [heff, List.length_map,
      buildPartitions_eq_range_map func.name p (by omega) _ 0]
    simp

/-- C1: with `parallel.enabled = False` the compiled workflow is exactly
`N + 2` single-task stages (fetch, one per shell command in file order,
publish); with `parallel.enabled = True`, partition size `p ≥ 1` and `k`
input files, the workflow is a single fetch task followed by one stage per
command, each containing exactly `ceil(k / p)` partition tasks. -/
theorem c1_compiler_mode_selection :
    (∀ (rc : RecipeConfig) (stages : List Stage),
      rc.workflow.parallel.enabled = false →
      makeShellWorkflowStages rc = .ok stages →
      stages.length = (getCommandsFromShFile rc.workflow).length + 2 ∧
      ∀ st ∈ stages, st.length = 1) ∧
    (∀ (rc : RecipeConfig) (stages : List Stage) (p : Nat),
      rc.workflow.parallel.enabled = true →
      rc.workflow.parallel.num_files_per_partition = (p : Int) →
      1 ≤ p →
      makeShellWorkflowStages rc = .ok stages →
      ∃ cmdStages,
        stages = [{ name := "fetch",
                    templateName := rc.id ++ "-fetch-template-" }] :: cmdStages ∧
        cmdStages.length = (getCommandsFromShFile rc.workflow).length ∧
        ∀ st ∈ cmdStages,
          st.length = (rc.inputParams.length + p - 1) / p) := by
  constructor
  · intro rc stages hpar hok
    unfold makeShellWorkflowStages at hok
    rw [hpar] at hok
    simp only [Bool.false_eq_true, if_false] at hok
    unfold _create_sequential_workflow at hok
    cases hf : make_fetch_input_template rc false with
    | error e =>
      rw [hf] at hok
      cases hok
    | ok fetchT =>
      rw [hf] at hok
      cases hpub : make_publish_template rc with
      | error e =>
        rw [hpub] at hok
        cases hok
      | ok publishT =>
        rw [hpub] at hok
        cases hok
        constructor
        · simp only [List.length_append, List.length_map, List.length_singleton,
            List.enum_length]
          omega
        · intro st hst
          simp only [List.mem_append, List.mem_singleton, List.mem_map] at hst
          rcases hst with (hst | ⟨ic, _, hic⟩) | hst
          · subst hst
            rfl
          · subst hic
            rfl
          · subst hst
            rfl
  · intro rc stages p hpar hp hp1 hok
    unfold makeShellWorkflowStages at hok
    rw [hpar] at hok
    simp only [if_true] at hok
    unfold _create_parallel_workflow at hok
    cases hf : make_fetch_input_template rc true with
    | error e =>
      rw [hf] at hok
      cases hok
    | ok fetchT =>
      rw [hf] at hok
      dsimp only at hok
      cases howt : mapMExcept (fun (ic : Nat × String) =>
          (create_execution_template { name := "cmd-" ++ toString ic.1, command := some ic.2 }).map
            (fun t => (({ name := "cmd-" ++ toString ic.1, command := some ic.2 } : ExecutionFunction), t)))
        (getCommandsFromShFile rc.workflow).enum with
      | error e =>
        rw [howt] at hok
        cases hok
      | ok owt =>
        rw [howt] at hok
        dsimp only at hok
        cases hcs : mapMExcept (fun (ft : ExecutionFunction × Container) =>
            create_parallel_tasks rc ft.1 ft.2) owt with
        | error e =>
          rw [hcs] at hok
          cases hok
        | ok cmdStages =>
          rw [hcs] at hok
          cases hok
          refine ⟨cmdStages, ?_, ?_, ?_⟩
          · rw [make_fetch_input_template_ok_name rc true fetchT hf]
            rfl
          · rw [mapMExcept_ok_length _ owt cmdStages hcs,
              mapMExcept_ok_length _ _ owt howt, List.enum_length]
          · intro st hst
            rcases mapMExcept_ok_mem _ owt cmdStages hcs st hst with ⟨ft, _, hft⟩
            exact create_parallel_tasks_ok_length rc ft.1 ft.2 st p hp hp1 hft

/-- Concrete sequential recipe used to instantiate `c1_compiler_mode_selection`. -/
def c1SeqRecipe : RecipeConfig :=
  { name := "My Recipe",
    inputParams := [{ value := "https://example.com/a.txt", type := "url" }],
    output := .pvc,
    workflow := { shFileContent := "echo hi\n# comment",
                  parallel := { enabled := false, partition_strategy := "files",
                                num_files_per_partition := 1 } } }

/-- Concrete parallel recipe (three url inputs, partition size 2) used to
instantiate `c1_compiler_mode_selection`. -/
def c1ParRecipe : RecipeConfig :=
  { name := "My Recipe",
    inputParams := [{ value := "https://example.com/a.txt", type := "url" },
                    { value := "https://example.com/b.txt", type := "url" },
                    { value := "https://example.com/c.txt", type := "url" }],
    output := .pvc,
    workflow := { shFileContent := "cp $INPUT_FILE $OUTPUT_FILE",
                  parallel := { enabled := true, partition_strategy := "files",
                                num_files_per_partition := 2 } } }

theorem c1_compiler_mode_selection_witness :
    (([[{ name := "my-recipe-fetch-template-", templateName := "my-recipe-fetch-template-" }],
       [{ name := "step-0", templateName := "run-cmd-0" }],
       [{ name := "publish-data", templateName := "publish-data-" }]] : List Stage).length =
        (getCommandsFromShFile c1SeqRecipe.workflow).length + 2 ∧
      ∀ st ∈ ([[{ name := "my-recipe-fetch-template-", templateName := "my-recipe-fetch-template-" }],
        [{ name := "step-0", templateName := "run-cmd-0" }],
        [{ name := "publish-data", templateName := "publish-data-" }]] : List Stage),
        st.length = 1) ∧
    (∃ cmdStages,
      ([[{ name := "fetch", templateName := "my-recipe-fetch-template-" }],
        [{ name := "cmd-0-partition-0", templateName := "cmd-0" },
         { name := "cmd-0-partition-1", templateName := "cmd-0" }]] : List Stage) =
        [{ name := "fetch", templateName := c1ParRecipe.id ++ "-fetch-template-" }] :: cmdStages ∧
      cmdStages.length = (getCommandsFromShFile c1ParRecipe.workflow).length ∧
      ∀ st ∈ cmdStages,
        st.length = (c1ParRecipe.inputParams.length + 2 - 1) / 2) :=
  ⟨c1_compiler_mode_selection.1 c1SeqRecipe
      [[{ name := "my-recipe-fetch-template-", templateName := "my-recipe-fetch-template-" }],
       [{ name := "step-0", templateName := "run-cmd-0" }],
       [{ name := "publish-data", templateName := "publish-data-" }]] rfl rfl,
    c1_compiler_mode_selection.2 c1ParRecipe
      [[{ name := "fetch", templateName := "my-recipe-fetch-template-" }],
       [{ name := "cmd-0-partition-0", templateName := "cmd-0" },
        { name := "cmd-0-partition-1", templateName := "cmd-0" }]] 2 rfl rfl
      (by decide) rfl⟩

theorem buildFetchCommandList_error_of_bad :
    ∀ (params : List InputParam) (outdir : String),
      (∃ p ∈ params, p.type ≠ "url") →
      ∃ e, buildFetchCommandList params outdir = .error e := by
  intro params
  induction params with
  | nil =>
    intro outdir h
    rcases h with ⟨p, hp, _⟩
    cases hp
  | cons q rest ih =>
    intro outdir h
    by_cases hq : q.type = "url"
    · have hrest : ∃ p ∈ rest, p.type ≠ "url" := by
        rcases h with ⟨p, hp, hptype⟩
        rcases List.mem_cons.mp hp with rfl | hp
        · exact absurd hq hptype
        · exact ⟨p, hp, hptype⟩
      rcases ih outdir hrest with ⟨e, he⟩
      refine ⟨e, ?_⟩
      simp only [buildFetchCommandList, if_pos hq, he]
      rfl
    · by_cases hq2 : q.type = "pvc_mount"
      · exact ⟨"PVC mount inputs are not yet supported",
          by simp only [buildFetchCommandList, if_neg hq, if_pos hq2]⟩
      · exact ⟨"Unsupported input type: " ++ q.type ++ " for parameter " ++ q.value,
          by simp only [buildFetchCommandList, if_neg hq, if_neg hq2]⟩

theorem make_fetch_input_template_error_of_bad (rc : RecipeConfig) (b : Bool)
    (h : ∃ p ∈ rc.inputParams, p.type ≠ "url") :
    ∃ e, make_fetch_input_template rc b = .error e := by
  rcases buildFetchCommandList_error_of_bad rc.inputParams
    (_get_output_directory rc.id b) h with ⟨e, he⟩
  refine ⟨e, ?_⟩
  unfold make_fetch_input_template _build_fetch_commands
  rw [he]
  rfl

/-- C5 counterexample: the source's fetch-stage dispatch
(`inputs.py::_build_fetch_commands`) raises the unsupported-input error for a
`file_system` parameter (the claim says it yields a copy command) and raises
`NotImplementedError` for a `pvc_mount` parameter (the claim says it is a
no-op). -/
theorem c5_fetch_dispatch_counterexample :
    _build_fetch_commands [{ value := "/data/f.txt", type := "file_system" }]
        "/output_dir" =
      .error "Unsupported input type: file_system for parameter /data/f.txt" ∧
    _build_fetch_commands [{ value := "/pvc/data", type := "pvc_mount" }]
        "/output_dir" =
      .error "PVC mount inputs are not yet supported" :=
  ⟨rfl, rfl⟩

/-- C5 (amended): a `url` parameter yields a `wget` retrieval command; a
`pvc_mount` parameter raises the not-implemented failure; a `file_system`,
`dataone`, or unrecognized parameter raises the unsupported-input failure;
each failure is raised while building the fetch template, before any task
graph is produced. -/
theorem c5_fetch_dispatch :
    (∀ (params : List InputParam) (outdir : String),
      (∀ p ∈ params, p.type = "url") →
      buildFetchCommandList params outdir =
        .ok (params.map (fun p => _build_url_fetch_command p.value outdir))) ∧
    (∀ (pre : List InputParam) (p : InputParam) (post : List InputParam)
        (outdir : String),
      (∀ q ∈ pre, q.type = "url") →
      (p.type = "pvc_mount" →
        buildFetchCommandList (pre ++ p :: post) outdir =
          .error "PVC mount inputs are not yet supported") ∧
      (p.type ≠ "url" → p.type ≠ "pvc_mount" →
        buildFetchCommandList (pre ++ p :: post) outdir =
          .error ("Unsupported input type: " ++ p.type ++ " for parameter " ++ p.value))) ∧
    (∀ rc : RecipeConfig,
      (∃ p ∈ rc.inputParams, p.type ≠ "url") →
      ∃ e, makeShellWorkflowStages rc = .error e) := by
  refine ⟨?_, ?_, ?_⟩
  · intro params
    induction params with
    | nil =>
      intro outdir _
      rfl
    | cons q rest ih =>
      intro outdir h
      have hq : q.type = "url" := h q (List.mem_cons_self q rest)
      simp only [buildFetchCommandList, if_pos hq,
        ih outdir (fun p hp => h p (List.mem_cons_of_mem q hp))]
      rfl
  · intro pre
    induction pre with
    | nil =>
      intro p post outdir _
      constructor
      · intro hp
        have hp2 : p.type ≠ "url" := by
          rw [hp]
          decide
        simp only [List.nil_append, buildFetchCommandList, if_neg hp2, if_pos hp]
      · intro hp1 hp2
        simp only [List.nil_append, buildFetchCommandList, if_neg hp1, if_neg hp2]
    | cons q pre ih =>
      intro p post outdir h
      have hq : q.type = "url" := h q (List.mem_cons_self q pre)
      have hrest := ih p post outdir (fun r hr => h r (List.mem_cons_of_mem q hr))
      constructor
      · intro hp
        simp only [List.cons_append, buildFetchCommandList, if_pos hq,
          List.append_eq, hrest.1 hp]
        rfl
      · intro hp1 hp2
        simp only [List.cons_append, buildFetchCommandList, if_pos hq,
          List.append_eq, hrest.2 hp1 hp2]
        rfl
  · intro rc h
    unfold makeShellWorkflowStages
    by_cases hen : rc.workflow.parallel.enabled = true
    · rcases make_fetch_input_template_error_of_bad rc true h with ⟨e, he⟩
      refine ⟨e, ?_⟩
      rw [if_pos hen]
      unfold _create_parallel_workflow
      rw [he]
    · rcases make_fetch_input_template_error_of_bad rc false h with ⟨e, he⟩
      refine ⟨e, ?_⟩
      rw [if_neg hen]
      unfold _create_sequential_workflow
      rw [he]

/-- Concrete recipe with a `file_system` input used to instantiate
`c5_fetch_dispatch`. -/
def c5BadRecipe : RecipeConfig :=
  { name := "Bad Inputs",
    inputParams := [{ value := "/data/f.txt", type := "file_system" }],
    output := .pvc,
    workflow := { shFileContent := "echo hi",
                  parallel := { enabled := false, partition_strategy := "files",
                                num_files_per_partition := 1 } } }

theorem c5_fetch_dispatch_witness :
    buildFetchCommandList [{ value := "https://example.com/a.txt", type := "url" }]
        "/output_dir" =
      .ok (([{ value := "https://example.com/a.txt", type := "url" }] : List InputParam).map
        (fun p => _build_url_fetch_command p.value "/output_dir")) ∧
    buildFetchCommandList
        (([{ value := "https://example.com/a.txt", type := "url" }] : List InputParam) ++
          { value := "/x", type := "weird" } :: []) "/output_dir" =
      .error "Unsupported input type: weird for parameter /x" ∧
    ∃ e, makeShellWorkflowStages c5BadRecipe = .error e :=
  ⟨c5_fetch_dispatch.1 [{ value := "https://example.com/a.txt", type := "url" }]
      "/output_dir" (by decide),
    (c5_fetch_dispatch.2.1 [{ value := "https://example.com/a.txt", type := "url" }]
        { value := "/x", type := "weird" } [] "/output_dir" (by decide)).2
      (by decide) (by decide),
    c5_fetch_dispatch.2.2 c5BadRecipe
      ⟨{ value := "/data/f.txt", type := "file_system" }, by decide, by decide⟩⟩

/-- The shared PVC data store, abstracted to the set (list) of recipe-id
subpaths that currently hold published data.  The publish-state workflows of
`publish.py` act on it only through the two shell commands they submit:
`rm -rf /mnt/{recipe_id}` and `test -d /mnt/{recipe_id}`. -/
abbrev PvcStore := List String

/-- `publish.py::remove_existing_published_data`: submit an Argo workflow
running `rm -rf /mnt/{recipe_config.id}` against the shared volume —
interpreted on the abstract store as removing the recipe-id subpath. -/
def remove_existing_published_data (store : PvcStore) (recipe_id : String) : PvcStore :=
  store.filter (fun x => x != recipe_id)

/-- `publish.py::check_for_existing_pvc_published_data`: submit an Argo
workflow running `test -d /mnt/{recipe_config.id}` and read back the
`yes`/`no` output parameter — interpreted on the abstract store as a
membership test.  The store is not modified. -/
def check_for_existing_pvc_published_data (store : PvcStore) (recipe_id : String) : Bool :=
  store.contains recipe_id

/-- `publish.py::check_for_existing_published_data`: dispatch on the output
type.  `pvc` runs the PVC existence check; `temporary` logs a warning and
returns `False` (its location is keyed by a not-yet-known workflow name);
any other output type raises `NotImplementedError` (the source's message is
a non-f-string literal, kept verbatim).  The second component is the list of
warning log lines emitted. -/
def check_for_existing_published_data (store : PvcStore) (rc : RecipeConfig) :
    Except String (Bool × List String) :=
  match rc.output with
  | .pvc => .ok (check_for_existing_pvc_published_data store rc.id, [])
  | .temporary =>
    .ok (false, ["Assuming temporary data are not published for '" ++ rc.name ++ "'"])
  | .dataone =>
    .error "Checking publication status of \x7brecipe_config.output.type\x7d output type is not supported."

/-- `publish.py::data_already_published`: with `overwrite=True`, remove any
existing published data and report not-published; otherwise run the
existence check.  Result: (already-published flag, store afterwards,
warning log lines). -/
def data_already_published (store : PvcStore) (rc : RecipeConfig)
    (overwrite : Bool) : Except String (Bool × PvcStore × List String) :=
  if overwrite then
    .ok (false, remove_existing_published_data store rc.id, [])
  else
    match check_for_existing_published_data store rc with
    | .error e => .error e
    | .ok (b, logs) => .ok (b, store, logs)

theorem contains_filter_ne (store : PvcStore) (x : String) :
    (store.filter (fun y => y != x)).contains x = false := by
  induction store with
  | nil => rfl
  | cons a as ih =>
    by_cases ha : a = x
    · subst ha
      simp [List.filter, ih]
    · have hne : (a != x) = true := by
        simp [bne, ha]
      simp only [List.filter, hne]
      rw [List.contains_cons]
      simp only [ih, Bool.or_false]
      simp [beq_iff_eq]
      exact fun h => ha h.symm

/-- C3: for every store state and recipe, `overwrite=True` unconditionally
removes the recipe-id-scoped subpath (the destination no longer exists
afterwards) and returns `False`; `overwrite=False` on the PVC output kind —
the kind with a recipe-id-scoped destination — returns exactly whether the
destination exists and leaves the store untouched. -/
theorem c3_publish_state_overwrite_semantics :
    ∀ (store : PvcStore) (rc : RecipeConfig),
      (data_already_published store rc true =
          .ok (false, remove_existing_published_data store rc.id, []) ∧
        (remove_existing_published_data store rc.id).contains rc.id = false) ∧
      (rc.output = .pvc →
        data_already_published store rc false =
          .ok (store.contains rc.id, store, [])) := by
  intro store rc
  refine ⟨⟨rfl, contains_filter_ne store rc.id⟩, ?_⟩
  intro hout
  unfold data_already_published check_for_existing_published_data
  rw [hout]
  rfl

/-- Concrete PVC-output recipe (id `pub-recipe`) used to instantiate
`c3_publish_state_overwrite_semantics`. -/
def c3Recipe : RecipeConfig :=
  { name := "Pub Recipe",
    inputParams := [{ value := "https://example.com/a.txt", type := "url" }],
    output := .pvc,
    workflow := { shFileContent := "echo hi",
                  parallel := { enabled := false, partition_strategy := "files",
                                num_files_per_partition := 1 } } }

theorem c3_publish_state_overwrite_semantics_witness :
    data_already_published ["pub-recipe", "other"] c3Recipe true =
      .ok (false, ["other"], []) ∧
    data_already_published ["pub-recipe", "other"] c3Recipe false =
      .ok (true, ["pub-recipe", "other"], []) :=
  ⟨((c3_publish_state_overwrite_semantics ["pub-recipe", "other"] c3Recipe).1.1).trans rfl,
    ((c3_publish_state_overwrite_semantics ["pub-recipe", "other"] c3Recipe).2 rfl).trans rfl⟩

/-- C9: for every recipe with the temporary output kind, the publish-state
check with `overwrite=False` returns `False` (never blocks compilation) and
logs the skipped-check warning, instead of raising or returning `True`. -/
theorem c9_temporary_output_soft_skip :
    ∀ (store : PvcStore) (rc : RecipeConfig),
      rc.output = .temporary →
      data_already_published store rc false =
        .ok (false, store,
          ["Assuming temporary data are not published for '" ++ rc.name ++ "'"]) := by
  intro store rc h
  unfold data_already_published check_for_existing_published_data
  rw [h]
  rfl

/-- Concrete temporary-output recipe used to instantiate
`c9_temporary_output_soft_skip`. -/
def c9Recipe : RecipeConfig :=
  { name := "Tmp Recipe",
    inputParams := [{ value := "https://example.com/a.txt", type := "url" }],
    output := .temporary,
    workflow := { shFileContent := "echo hi",
                  parallel := { enabled := false, partition_strategy := "files",
                                num_files_per_partition := 1 } } }

theorem c9_temporary_output_soft_skip_witness :
    data_already_published ["tmp-recipe"] c9Recipe false =
      .ok (false, ["tmp-recipe"],
        ["Assuming temporary data are not published for 'Tmp Recipe'"]) :=
  (c9_temporary_output_soft_skip ["tmp-recipe"] c9Recipe rfl).trans rfl

/-- `argo.py::wait_for_workflow_completion`, run against a finite observation
trace: each element is one poll's result (`get_workflow_status` returns the
phase string or `None`).  The result pairs the loop's outcome with the number
of polls consumed; outcome `none` means the loop is still running after the
whole trace (the source loops with no timeout, sleeping between polls —
falsy, unknown and absent statuses never terminate it). -/
def wait_for_workflow_completion (workflow_name : String) :
    List (Option String) → Option (Except String Unit) × Nat
  | [] => (none, 0)
  | st :: rest =>
    match st with
    | some s =>
      if s = "Failed" then
        (some (.error ("Workflow with name " ++ workflow_name ++ " failed.")), 1)
      else if s = "Succeeded" then (some (.ok ()), 1)
      else
        let r := wait_for_workflow_completion workflow_name rest
        (r.1, r.2 + 1)
    | none =>
      let r := wait_for_workflow_completion workflow_name rest
      (r.1, r.2 + 1)

/-- `argo.py::submit_workflow`: `workflow.create()` is one engine call whose
resulting name is `workflow_name`; a `None` name raises the submission error
before any poll; with `wait=True` the completion loop runs against the
observation trace.  The result pairs the outcome (the workflow name on
success) with the number of polls performed. -/
def submit_workflow (workflow_name : Option String) (wait : Bool)
    (trace : List (Option String)) : Option (Except String String) × Nat :=
  match workflow_name with
  | none => (some (.error "Problem with submitting workflow."), 0)
  | some n =>
    if wait then
      match wait_for_workflow_completion n trace with
      | (some (.ok _), k) => (some (.ok n), k)
      | (some (.error e), k) => (some (.error e), k)
      | (none, k) => (none, k)
    else (some (.ok n), 0)

/-- C4: polls `[Running, Running, Failed]` raise the workflow-execution
error naming the workflow after exactly 3 polls; `[Running, Succeeded]`
returns normally after exactly 2 polls; a submission with no workflow name
raises the submission error with zero polls; and any trace of statuses that
are neither `Failed` nor `Succeeded` (unknown, empty or absent) keeps the
loop running through the entire trace — never a failure. -/
theorem c4_lifecycle_terminal_mapping :
    (∀ name : String,
      wait_for_workflow_completion name [some "Running", some "Running", some "Failed"] =
        (some (.error ("Workflow with name " ++ name ++ " failed.")), 3)) ∧
    (∀ name : String,
      wait_for_workflow_completion name [some "Running", some "Succeeded"] =
        (some (.ok ()), 2)) ∧
    (∀ (wait : Bool) (trace : List (Option String)),
      submit_workflow none wait trace =
        (some (.error "Problem with submitting workflow."), 0)) ∧
    (∀ (name : String) (trace : List (Option String)),
      (∀ st ∈ trace, st ≠ some "Failed" ∧ st ≠ some "Succeeded") →
      wait_for_workflow_completion name trace = (none, trace.length)) := by
  refine ⟨fun name => rfl, fun name => rfl, fun wait trace => rfl, ?_⟩
  intro name trace
  induction trace with
  | nil =>
    intro _
    rfl
  | cons st rest ih =>
    intro h
    have hst := h st (List.mem_cons_self st rest)
    have hrest := ih (fun x hx => h x (List.mem_cons_of_mem st hx))
    cases st with
    | none =>
      simp only [wait_for_workflow_completion, hrest, List.length_cons]
    | some s =>
      have hs1 : s ≠ "Failed" := fun hh => hst.1 (by rw [hh])
      have hs2 : s ≠ "Succeeded" := fun hh => hst.2 (by rw [hh])
      simp only [wait_for_workflow_completion, if_neg hs1, if_neg hs2, hrest,
        List.length_cons]

theorem c4_lifecycle_terminal_mapping_witness :
    wait_for_workflow_completion "wf-1" [some "Running", some "Running", some "Failed"] =
      (some (.error "Workflow with name wf-1 failed."), 3) ∧
    wait_for_workflow_completion "wf-1" [some "Running", some "Succeeded"] =
      (some (.ok ()), 2) ∧
    submit_workflow none true [some "Running"] =
      (some (.error "Problem with submitting workflow."), 0) ∧
    wait_for_workflow_completion "wf-1" [some "Pending", none, some ""] = (none, 3) :=
  ⟨(c4_lifecycle_terminal_mapping.1 "wf-1").trans rfl,
    c4_lifecycle_terminal_mapping.2.1 "wf-1",
    c4_lifecycle_terminal_mapping.2.2.1 true [some "Running"],
    (c4_lifecycle_terminal_mapping.2.2.2 "wf-1" [some "Pending", none, some ""]
      (by decide)).trans rfl⟩

/-- One outbound network call made while loading/validating a recipe
configuration. -/
inductive NetworkCall where
  | resolver (dataset_identifier : String)
  | headRequest (url : String)
deriving Repr, DecidableEq

/-- `models/recipe_config.py::InputParam.validate_url_accessible` (a pydantic
`model_validator` run during validation): for a url-typed parameter, an HTTP
HEAD request is made only when the validation context sets `check_urls`;
otherwise the validator returns immediately. -/
def validate_url_accessible_calls (check_urls : Bool) (p : InputParam) :
    List NetworkCall :=
  if p.type = "url" && check_urls then [.headRequest p.value] else []

/-- `models/recipe_config.py::RecipeConfig.resolve_dataone_inputs` (a
`model_validator(mode="after")`, run as part of every
`RecipeConfig.model_validate`): each dataone-typed parameter is resolved
through the DataONE adapter (`resolve_dataone_input`) — one network
resolution per such parameter. -/
def resolve_dataone_inputs_calls (params : List InputParam) : List NetworkCall :=
  (params.filter (fun p => p.type == "dataone")).map (fun p => .resolver p.value)

/-- The network calls performed by `RecipeConfig.model_validate` on the given
input parameters: the per-field validators run first (HEAD checks, only when
the context opts in), then the after-model validator
`resolve_dataone_inputs`. -/
def model_validate_network_calls (params : List InputParam) (check_urls : Bool) :
    List NetworkCall :=
  (params.map (validate_url_accessible_calls check_urls)).flatten ++
    resolve_dataone_inputs_calls params

/-- `recipe.py::get_recipe_config` — the `load(raw_config, recipe_directory)`
of the spec: parses `meta.yml` and calls `RecipeConfig.model_validate` with
context `{"recipe_directory": ...}` only, so `check_urls` is unset. -/
def get_recipe_config_network_calls (params : List InputParam) : List NetworkCall :=
  model_validate_network_calls params false

/-- C6 counterexample: loading a configuration whose input has type `dataone`
invokes the dataset-resolution adapter during `load` itself — the model
validator `resolve_dataone_inputs` runs inside `RecipeConfig.model_validate`,
not as an opt-in step after load. -/
theorem c6_load_network_free_counterexample :
    get_recipe_config_network_calls [{ value := "urn:uuid:1234", type := "dataone" }] =
      [.resolver "urn:uuid:1234"] ∧
    get_recipe_config_network_calls [{ value := "urn:uuid:1234", type := "dataone" }] ≠ [] :=
  ⟨rfl, by decide⟩

/-- C6 (amended): `load` performs no network calls when no input parameter
has type `dataone` (URL HEAD checking is a separate opt-in that `load` does
not enable); when dataone-typed parameters are present, `load` itself invokes
the resolution adapter once per such parameter, implicitly during
validation. -/
theorem c6_load_network_effects :
    (∀ params : List InputParam,
      (∀ p ∈ params, p.type ≠ "dataone") →
      get_recipe_config_network_calls params = []) ∧
    (∀ params : List InputParam,
      get_recipe_config_network_calls params =
        (params.filter (fun p => p.type == "dataone")).map
          (fun p => .resolver p.value)) := by
  have hmap : ∀ params : List InputParam,
      (params.map (validate_url_accessible_calls false)).flatten = [] := by
    intro params
    induction params with
    | nil => rfl
    | cons p ps ih => simp [validate_url_accessible_calls, ih]
  have heq : ∀ params : List InputParam,
      get_recipe_config_network_calls params =
        (params.filter (fun p => p.type == "dataone")).map
          (fun p => NetworkCall.resolver p.value) := by
    intro params
    unfold get_recipe_config_network_calls model_validate_network_calls
      resolve_dataone_inputs_calls
    rw [hmap]
    rfl
  refine ⟨?_, heq⟩
  intro params h
  rw [heq]
  have hfil : params.filter (fun p => p.type == "dataone") = [] := by
    rw [List.filter_eq_nil_iff]
    intro p hp
    simp only [beq_iff_eq]
    exact h p hp
  rw [hfil]
  rfl

theorem c6_load_network_effects_witness :
    get_recipe_config_network_calls
      [{ value := "https://example.com/a.txt", type := "url" },
       { value := "/mnt/data", type := "pvc_mount" }] = [] :=
  c6_load_network_effects.1
    [{ value := "https://example.com/a.txt", type := "url" },
     { value := "/mnt/data", type := "pvc_mount" }] (by decide)

/-- `argo.py`: Kubernetes names must be no more than 63 characters. -/
def KUBERNETES_NAME_MAX_LENGTH : Int := 63

/-- `argo.py`: Argo appends a 5-character random suffix to `generate_name`. -/
def ARGO_GENERATED_SUFFIX_LENGTH : Int := 5

/-- Python's prefix slice `s[:k]` at the character level: a non-negative `k`
keeps the first `k` characters, a negative `k` drops the last `|k|`. -/
def pySlicePrefix (s : String) (k : Int) : String :=
  if 0 ≤ k then String.mk (s.data.take k.toNat)
  else String.mk (s.data.take (s.length - k.natAbs))

/-- `argo.py::make_generate_name`: truncate the recipe id to
`63 - 5 - len(suffix)` characters, then append `f"-{suffix}-"` when a suffix
is given. -/
def make_generate_name (recipe_id : String) (suffix : String) : String :=
  let max_generate_name_length := KUBERNETES_NAME_MAX_LENGTH - ARGO_GENERATED_SUFFIX_LENGTH
  let max_id_length := max_generate_name_length - (suffix.length : Int)
  let truncated_id := pySlicePrefix recipe_id max_id_length
  if suffix ≠ "" then truncated_id ++ "-" ++ suffix ++ "-" else truncated_id

/-- A 58-character recipe id (the id itself is within the Kubernetes limit). -/
def c10LongRecipeId : String := String.mk (List.replicate 58 'a')

/-- C10: the claimed 58-character bound fails.  With a 58-character recipe id
and the suffix `"shell"` (the one `make_and_submit_shell_workflow` uses),
`make_generate_name` truncates the id to `58 - 5 = 53` characters but then
appends `"-shell-"`, producing 60 characters; with Argo's 5-character random
suffix the final workflow name reaches 65 > 63 — contradicting the
function's own docstring ("truncates the recipe_id as needed to ensure the
final name stays within the limit"). -/
theorem c10_workflow_name_length_violation :
    (make_generate_name c10LongRecipeId "shell").length = 60 ∧
    58 < (make_generate_name c10LongRecipeId "shell").length ∧
    KUBERNETES_NAME_MAX_LENGTH <
      ((make_generate_name c10LongRecipeId "shell").length : Int) +
        ARGO_GENERATED_SUFFIX_LENGTH :=
  ⟨by decide, by decide, by decide⟩
